import Mathlib

/-!
Shallow embedding of src/matlab/src/cpp/arrow/matlab/c/proxy/schema.cc: the
MATLAB-side proxy that wraps one ArrowSchema C-data-interface record and
exposes its address to the host runtime.  Pointer-valued fields are modelled
as natural-number addresses with 0 standing for NULL; the release callback
pointer is modelled as an optional callback identifier, with the behaviour of
the foreign callback supplied as an explicit interpretation function.
-/

/-- Field layout of the ArrowSchema record from arrow/c/abi.h: format, name
and metadata pointers, the flags bit field, the child count, the children and
dictionary pointers, the release callback pointer and the opaque private_data
pointer.  Pointers are natural-number addresses (0 is NULL); the release
callback pointer is an optional callback identifier so that NULL versus
non-NULL is explicit. -/
structure ArrowSchema where
  format : Nat
  name : Nat
  metadata : Nat
  flags : Int
  n_children : Int
  children : Nat
  dictionary : Nat
  release : Option Nat
  private_data : Nat
  deriving DecidableEq

/-- Value-initialized ArrowSchema, as produced by the member initializer
arrowSchema{} in the constructor: every field is zero and every pointer,
the release callback included, is NULL. -/
def ArrowSchema.zero : ArrowSchema :=
  { format := 0, name := 0, metadata := 0, flags := 0, n_children := 0,
    children := 0, dictionary := 0, release := none, private_data := 0 }

/-- Identifiers of the proxy methods that can appear in the method dispatch
table; the schema proxy defines a single method, getAddress. -/
inductive Method where
  | getAddress
  deriving DecidableEq

/-- Host-runtime data values carried through the call context.  The
getAddress method only ever produces an unsigned 64-bit scalar
(ArrayFactory createScalar applied to a uint64_t). -/
inductive Value where
  | uint64 (v : Nat)
  deriving DecidableEq

/-- Call context of one method invocation: the ordered input values and the
mutable output slots, the latter modelled as a map from slot index to the
value written there, if any. -/
structure Context where
  inputs : List Value
  outputs : Nat → Option Value

/-- The proxy instance: the wrapped ArrowSchema storage, the fixed address at
which that storage lives for the whole lifetime of the proxy, and the method
dispatch table mapping operation names to bound methods. -/
structure Schema where
  arrowSchema : ArrowSchema
  storageAddress : Nat
  methods : List (String × Method)
  deriving DecidableEq

/-- Constructor Schema::Schema(): value-initializes arrowSchema and registers
the single method under the name "getAddress" via
REGISTER_METHOD(Schema, getAddress).  The storage address is chosen by the
allocator at construction and fixed from then on. -/
def Schema.new (addr : Nat) : Schema :=
  { arrowSchema := ArrowSchema.zero, storageAddress := addr,
    methods := [("getAddress", Method.getAddress)] }

/-- The exported handle of Schema::getAddress: the address of the arrowSchema
storage reinterpreted as a uint64_t. -/
def Schema.get_address (s : Schema) : Nat :=
  s.storageAddress % 2 ^ 64

/-- Method Schema::getAddress: takes the address of the arrowSchema storage as
a uint64_t and writes it, as a scalar value, into output slot 0 of the call
context.  The proxy state is returned alongside the updated context so that
write effects on the proxy are observable; the method performs none. -/
def Schema.getAddress (s : Schema) (context : Context) : Schema × Context :=
  let address := s.get_address
  (s, { context with
        outputs := fun i =>
          if i = 0 then some (Value.uint64 address) else context.outputs i })

/-- Destructor Schema::~Schema: if arrowSchema.release is non-NULL, invoke the
callback, passing the resource itself, and then set release to NULL; otherwise
do nothing.  The foreign callback is modelled by an interpretation cbSem
mapping a callback identifier and the resource passed to it to the resource
state the callback leaves behind; the second component of the result is the
trace of callback invocations, each recorded with the argument it received. -/
def Schema.destroy (cbSem : Nat → ArrowSchema → ArrowSchema) (s : Schema) :
    Schema × List (Nat × ArrowSchema) :=
  match s.arrowSchema.release with
  | some c =>
      ({ s with arrowSchema := { cbSem c s.arrowSchema with release := none } },
       [(c, s.arrowSchema)])
  | none => (s, [])

/-- Run the teardown n times in sequence on the same instance, threading the
state through and concatenating the traces of callback invocations. -/
def Schema.destroyN (cbSem : Nat → ArrowSchema → ArrowSchema) (s : Schema) :
    Nat → Schema × List (Nat × ArrowSchema)
  | 0 => (s, [])
  | n + 1 =>
      let first := s.destroy cbSem
      let rest := Schema.destroyN cbSem first.1 n
      (rest.1, first.2 ++ rest.2)

/-- Modelled from the spec: dispatch-table lookup of an operation name (the
generic lookup lives in the libmexclass proxy framework, which is not part of
this translation unit). -/
def lookupMethod (name : String) : List (String × Method) → Option Method
  | [] => none
  | (k, m) :: rest => if k = name then some m else lookupMethod name rest

/-- Modelled from the spec: the outcome of one invoke through the call
context, either the updated proxy and context or the recoverable
unknown-operation condition reported back through the context (the generic
invocation path lives in the libmexclass proxy framework, outside this
translation unit). -/
inductive InvokeResult where
  | ok (s : Schema) (ctx : Context)
  | unknownOperation (name : String)

/-- Modelled from the spec: invoke(name, context) looks up name in the method
dispatch table; if absent it fails with the recoverable unknown-operation
condition, if present it runs the bound method on the context (libmexclass
generic invocation path, outside this translation unit). -/
def Schema.invoke (s : Schema) (name : String) (ctx : Context) : InvokeResult :=
  match lookupMethod name s.methods with
  | some Method.getAddress =>
      let r := s.getAddress ctx
      InvokeResult.ok r.1 r.2
  | none => InvokeResult.unknownOperation name

/-- Modelled from the spec: the result object of construction, holding either
the new proxy instance or a construction error (libmexclass MakeResult,
outside this translation unit). -/
inductive MakeResult where
  | ok (proxy : Schema)
  | err (message : String)

/-- Static Schema::make: ignores the constructor arguments and returns a
result holding a freshly constructed proxy instance; the allocator chooses the
storage address. -/
def Schema.make (constructor_arguments : List Value) (addr : Nat) : MakeResult :=
  MakeResult.ok (Schema.new addr)

/-- Call the getAddress method n times in a row on the same instance,
threading the proxy state and context through and recording the value each
call leaves in output slot 0. -/
def Schema.callGetAddressN (s : Schema) (ctx : Context) :
    Nat → Schema × List (Option Value)
  | 0 => (s, [])
  | n + 1 =>
      let r := s.getAddress ctx
      let rest := Schema.callGetAddressN r.1 r.2 n
      (rest.1, (r.2.outputs 0) :: rest.2)

/-- Concrete fixture: a proxy whose resource carries a non-null release
callback, as an external producer would leave it after populating the
exported storage. -/
def sampleReleased : Schema :=
  { Schema.new 4 with arrowSchema := { ArrowSchema.zero with release := some 5 } }

/-- Concrete fixture: interpretation of the foreign callback that leaves the
resource unchanged. -/
def idCb : Nat → ArrowSchema → ArrowSchema := fun _ r => r

/-- Concrete fixture: interpretation of the foreign callback that overwrites
some fields, standing for a callback that frees and scrubs its data. -/
def scrubCb : Nat → ArrowSchema → ArrowSchema :=
  fun c r => { r with format := c, name := 9, private_data := 0 }

/-- Concrete fixture: a call context with no inputs and all output slots
empty. -/
def emptyContext : Context :=
  { inputs := [], outputs := fun _ => none }

/-- Teardown of an already-released (or never-populated) instance is the
identity with an empty invocation trace, however often it is repeated. -/
theorem destroyN_of_release_none (cbSem : Nat → ArrowSchema → ArrowSchema)
    (s : Schema) (h : s.arrowSchema.release = none) (n : Nat) :
    Schema.destroyN cbSem s n = (s, []) := by
  induction n with
  | zero => rfl
  | succ n ih =>
      simp only [Schema.destroyN, Schema.destroy, h]
      simpa using ih

/-- C1: when the wrapped resource carries a non-null release callback,
teardown invokes the callback exactly once, passing the resource itself, then
clears the release field; running teardown any further number of times changes
nothing and adds no further invocation, so the callback runs exactly once per
resource instance over the whole lifetime. -/
theorem C1_destroy_release_exactly_once
    (cbSem : Nat → ArrowSchema → ArrowSchema) (s : Schema) (c : Nat)
    (h : s.arrowSchema.release = some c) (n : Nat) :
    (s.destroy cbSem).2 = [(c, s.arrowSchema)] ∧
    (s.destroy cbSem).1.arrowSchema.release = none ∧
    Schema.destroyN cbSem s (n + 1) = ((s.destroy cbSem).1, [(c, s.arrowSchema)]) := by
  have hd : s.destroy cbSem =
      ({ s with arrowSchema := { cbSem c s.arrowSchema with release := none } },
       [(c, s.arrowSchema)]) := by
    unfold Schema.destroy
    rw [h]
  have hrel : (s.destroy cbSem).1.arrowSchema.release = none := by
    rw [hd]
  refine ⟨by rw [hd], hrel, ?_⟩
  simp only [Schema.destroyN]
  rw [destroyN_of_release_none cbSem _ hrel n, hd]
  simp

/-- Witness for C1 at a concrete released fixture with a scrubbing callback
and one extra teardown. -/
theorem C1_destroy_release_exactly_once_witness :
    (sampleReleased.destroy scrubCb).2 = [(5, sampleReleased.arrowSchema)] ∧
    (sampleReleased.destroy scrubCb).1.arrowSchema.release = none ∧
    Schema.destroyN scrubCb sampleReleased (1 + 1) =
      ((sampleReleased.destroy scrubCb).1, [(5, sampleReleased.arrowSchema)]) :=
  C1_destroy_release_exactly_once scrubCb sampleReleased 5 rfl 1

/-- C2: a freshly constructed proxy wraps an ArrowSchema every one of whose
fields is zero or NULL before any external write through the exported
address. -/
theorem C2_fresh_schema_zero_init (addr : Nat) :
    (Schema.new addr).arrowSchema.format = 0 ∧
    (Schema.new addr).arrowSchema.name = 0 ∧
    (Schema.new addr).arrowSchema.metadata = 0 ∧
    (Schema.new addr).arrowSchema.flags = 0 ∧
    (Schema.new addr).arrowSchema.n_children = 0 ∧
    (Schema.new addr).arrowSchema.children = 0 ∧
    (Schema.new addr).arrowSchema.dictionary = 0 ∧
    (Schema.new addr).arrowSchema.release = none ∧
    (Schema.new addr).arrowSchema.private_data = 0 :=
  ⟨rfl, rfl, rfl, rfl, rfl, rfl, rfl, rfl, rfl⟩

/-- C3: invoking the registered operation named "getAddress" through the call
context succeeds and writes into output slot 0 the same unsigned 64-bit
address value that a direct call to get_address on the same instance
returns. -/
theorem C3_dispatch_getAddress_matches_direct (s : Schema) (ctx : Context)
    (h : lookupMethod "getAddress" s.methods = some Method.getAddress) :
    s.invoke "getAddress" ctx =
      InvokeResult.ok (s.getAddress ctx).1 (s.getAddress ctx).2 ∧
    (s.getAddress ctx).2.outputs 0 = some (Value.uint64 s.get_address) ∧
    s.get_address = s.storageAddress % 2 ^ 64 := by
  refine ⟨?_, rfl, rfl⟩
  unfold Schema.invoke
  rw [h]

/-- Witness for C3 on a freshly constructed instance at a concrete address and
an empty call context. -/
theorem C3_dispatch_getAddress_matches_direct_witness :
    (Schema.new 12345).invoke "getAddress" emptyContext =
      InvokeResult.ok ((Schema.new 12345).getAddress emptyContext).1
        ((Schema.new 12345).getAddress emptyContext).2 ∧
    ((Schema.new 12345).getAddress emptyContext).2.outputs 0 =
      some (Value.uint64 (Schema.new 12345).get_address) ∧
    (Schema.new 12345).get_address = (Schema.new 12345).storageAddress % 2 ^ 64 :=
  C3_dispatch_getAddress_matches_direct (Schema.new 12345) emptyContext rfl

/-- C4: invoking an operation name absent from the dispatch table of a
constructed instance fails with the recoverable unknown-operation condition
rather than crashing, and the instance stays usable: the registered operation
still dispatches correctly afterwards on the same, unchanged instance. -/
theorem C4_unknown_operation_recoverable (addr : Nat) (name : String)
    (ctx ctx' : Context) (h : name ≠ "getAddress") :
    (Schema.new addr).invoke name ctx = InvokeResult.unknownOperation name ∧
    (Schema.new addr).invoke "getAddress" ctx' =
      InvokeResult.ok ((Schema.new addr).getAddress ctx').1
        ((Schema.new addr).getAddress ctx').2 := by
  constructor
  · have h2 : ¬ ("getAddress" = name) := fun e => h e.symm
    simp [Schema.invoke, Schema.new, lookupMethod, h2]
  · rfl

/-- Witness for C4 at the unregistered name "format" on a freshly constructed
instance. -/
theorem C4_unknown_operation_recoverable_witness :
    (Schema.new 0).invoke "format" emptyContext =
      InvokeResult.unknownOperation "format" ∧
    (Schema.new 0).invoke "getAddress" emptyContext =
      InvokeResult.ok ((Schema.new 0).getAddress emptyContext).1
        ((Schema.new 0).getAddress emptyContext).2 :=
  C4_unknown_operation_recoverable 0 "format" emptyContext emptyContext (by decide)

/-- C5: when the release field is NULL at teardown, destroy invokes no
callback and changes nothing: a total no-op with an empty invocation trace. -/
theorem C5_destroy_null_release_noop (cbSem : Nat → ArrowSchema → ArrowSchema)
    (s : Schema) (h : s.arrowSchema.release = none) :
    s.destroy cbSem = (s, []) := by
  unfold Schema.destroy
  rw [h]

/-- Witness for C5 on a freshly constructed instance, whose release field is
still NULL. -/
theorem C5_destroy_null_release_noop_witness :
    (Schema.new 7).destroy scrubCb = (Schema.new 7, []) :=
  C5_destroy_null_release_noop scrubCb (Schema.new 7) rfl

/-- C6: getAddress has no effect on the proxy, and any number of successive
calls on the same live instance all observe the identical address value. -/
theorem C6_get_address_stable (s : Schema) (ctx : Context) (n : Nat) :
    (Schema.callGetAddressN s ctx n).1 = s ∧
    (Schema.callGetAddressN s ctx n).2 =
      List.replicate n (some (Value.uint64 s.get_address)) := by
  induction n generalizing ctx with
  | zero => exact ⟨rfl, rfl⟩
  | succ n ih =>
      have h := ih (s.getAddress ctx).2
      constructor
      · show (Schema.callGetAddressN (s.getAddress ctx).1 (s.getAddress ctx).2 n).1 = s
        exact h.1
      · show (s.getAddress ctx).2.outputs 0 ::
            (Schema.callGetAddressN (s.getAddress ctx).1 (s.getAddress ctx).2 n).2 =
            List.replicate (n + 1) (some (Value.uint64 s.get_address))
        have hfst : (s.getAddress ctx).1 = s := rfl
        rw [List.replicate_succ, hfst, h.2]
        rfl

/-- C7: make ignores its constructor arguments, always succeeds, and yields a
proxy wrapping a zero-initialized resource with the dispatch table
populated. -/
theorem C7_make_ignores_args_cannot_fail (args args' : List Value) (addr : Nat) :
    Schema.make args addr = Schema.make args' addr ∧
    Schema.make args addr = MakeResult.ok (Schema.new addr) ∧
    (Schema.new addr).arrowSchema = ArrowSchema.zero ∧
    (Schema.new addr).methods = [("getAddress", Method.getAddress)] :=
  ⟨rfl, rfl, rfl, rfl⟩

/-- C8: the teardown code itself touches only the release field: after a
destroy that fires the callback, every other field holds exactly what the
foreign callback left there, and the release field is NULL. -/
theorem C8_destroy_frame (cbSem : Nat → ArrowSchema → ArrowSchema) (s : Schema)
    (c : Nat) (h : s.arrowSchema.release = some c) :
    (s.destroy cbSem).1.arrowSchema.format = (cbSem c s.arrowSchema).format ∧
    (s.destroy cbSem).1.arrowSchema.name = (cbSem c s.arrowSchema).name ∧
    (s.destroy cbSem).1.arrowSchema.metadata = (cbSem c s.arrowSchema).metadata ∧
    (s.destroy cbSem).1.arrowSchema.flags = (cbSem c s.arrowSchema).flags ∧
    (s.destroy cbSem).1.arrowSchema.n_children = (cbSem c s.arrowSchema).n_children ∧
    (s.destroy cbSem).1.arrowSchema.children = (cbSem c s.arrowSchema).children ∧
    (s.destroy cbSem).1.arrowSchema.dictionary = (cbSem c s.arrowSchema).dictionary ∧
    (s.destroy cbSem).1.arrowSchema.private_data = (cbSem c s.arrowSchema).private_data ∧
    (s.destroy cbSem).1.arrowSchema.release = none ∧
    (s.destroy idCb).1.arrowSchema.format = s.arrowSchema.format := by
  have key : (s.destroy cbSem).1.arrowSchema =
      { cbSem c s.arrowSchema with release := none } := by
    unfold Schema.destroy
    rw [h]
  have keyId : (s.destroy idCb).1.arrowSchema =
      { idCb c s.arrowSchema with release := none } := by
    unfold Schema.destroy
    rw [h]
  rw [key, keyId]
  exact ⟨rfl, rfl, rfl, rfl, rfl, rfl, rfl, rfl, rfl, rfl⟩

/-- Witness for C8 at the concrete released fixture with a scrubbing
callback. -/
theorem C8_destroy_frame_witness :
    (sampleReleased.destroy scrubCb).1.arrowSchema.format =
      (scrubCb 5 sampleReleased.arrowSchema).format ∧
    (sampleReleased.destroy scrubCb).1.arrowSchema.name =
      (scrubCb 5 sampleReleased.arrowSchema).name ∧
    (sampleReleased.destroy scrubCb).1.arrowSchema.metadata =
      (scrubCb 5 sampleReleased.arrowSchema).metadata ∧
    (sampleReleased.destroy scrubCb).1.arrowSchema.flags =
      (scrubCb 5 sampleReleased.arrowSchema).flags ∧
    (sampleReleased.destroy scrubCb).1.arrowSchema.n_children =
      (scrubCb 5 sampleReleased.arrowSchema).n_children ∧
    (sampleReleased.destroy scrubCb).1.arrowSchema.children =
      (scrubCb 5 sampleReleased.arrowSchema).children ∧
    (sampleReleased.destroy scrubCb).1.arrowSchema.dictionary =
      (scrubCb 5 sampleReleased.arrowSchema).dictionary ∧
    (sampleReleased.destroy scrubCb).1.arrowSchema.private_data =
      (scrubCb 5 sampleReleased.arrowSchema).private_data ∧
    (sampleReleased.destroy scrubCb).1.arrowSchema.release = none ∧
    (sampleReleased.destroy idCb).1.arrowSchema.format =
      sampleReleased.arrowSchema.format :=
  C8_destroy_frame scrubCb sampleReleased 5 rfl

/-- C9: after construction the dispatch table holds exactly the single entry
binding the name "getAddress" to the getAddress method, that name resolves to
that method, and no other name resolves. -/
theorem C9_dispatch_table_single_entry (addr : Nat) :
    (Schema.new addr).methods = [("getAddress", Method.getAddress)] ∧
    lookupMethod "getAddress" (Schema.new addr).methods = some Method.getAddress ∧
    ∀ name, name ≠ "getAddress" → lookupMethod name (Schema.new addr).methods = none := by
  refine ⟨rfl, rfl, ?_⟩
  intro name h
  have h2 : ¬ ("getAddress" = name) := fun e => h e.symm
  simp [Schema.new, lookupMethod, h2]

/-- Witness for C9 at a concrete address and the unregistered name
"release". -/
theorem C9_dispatch_table_single_entry_witness :
    (Schema.new 0).methods = [("getAddress", Method.getAddress)] ∧
    lookupMethod "release" (Schema.new 0).methods = none :=
  ⟨(C9_dispatch_table_single_entry 0).1,
   (C9_dispatch_table_single_entry 0).2.2 "release" (by decide)⟩

/-- C10: getAddress neither writes nor reads any field of the wrapped
resource: the proxy comes back unchanged, and the context it produces is the
same whatever the resource fields hold, a released or never-populated resource
included. -/
theorem C10_getAddress_ignores_resource (s : Schema) (ctx : Context)
    (r : ArrowSchema) :
    (s.getAddress ctx).1 = s ∧
    (({ s with arrowSchema := r } : Schema).getAddress ctx).2 =
      (s.getAddress ctx).2 :=
  ⟨rfl, rfl⟩
